import Mathlib

/-!
Verification of the model-selection and ensembling workflow in
`modelo_final.ipynb`.

The notebook is a linear pipeline: for each candidate model run a grid
search, keep the best estimator, predict on the held-out test split,
record MAE and RMSE in a results dictionary; then build a voting and a
stacking ensemble from the three tuned estimators, record their metrics,
and finally select the name with minimal RMSE.

The embedding below models:
  * the metric computations `mean_absolute_error` and
    `np.sqrt(mean_squared_error ...)` over lists of reals, with the
    empty/malformed case as an explicit error (`none`), matching the
    validation error the numerical library raises there;
  * the results dictionary as an insertion-ordered association list,
    with Python dictionary assignment semantics (`dictInsert`);
  * the selection `min(results, key=lambda x: results[x][RMSE])` as a
    left fold that replaces the current best only on strictly smaller
    RMSE (`bestFrom`), exactly as Python `min` does;
  * the pipeline itself, parameterised by an oracle `LibOracle` giving
    the library fits as deterministic functions of a seed: grid search
    returns winning hyperparameters, an estimator fitted with given
    hyperparameters is a prediction function, and the stacking
    meta-model is an opaque prediction function.
-/

namespace ModeloFinal

/-- A hyperparameter value as it appears in the notebook grids:
an integer, a float (learning rates), or Python None (max_depth). -/
inductive PValue where
  | pInt : ℤ → PValue
  | pFloat : ℚ → PValue
  | pNone : PValue
deriving DecidableEq

/-- The Best Params field of a results entry: either a mapping from
parameter name to value (the single models), or the literal string
N/A stored for the two ensembles. -/
inductive BestParams where
  | mapping : List (String × PValue) → BestParams
  | na : BestParams
deriving DecidableEq

/-- One value of the results dictionary:
`\x7bBest Params: ..., MAE: ..., RMSE: ...\x7d`. -/
structure Entry (α : Type) where
  bestParams : BestParams
  mae : α
  rmse : α
deriving DecidableEq

/-- The results dictionary, as an insertion-ordered association list. -/
abbrev Table (α : Type) := List (String × Entry α)

/-- Python dictionary assignment `d[k] = v`: overwrite in place when the
key is present, append at the end when it is fresh. -/
def dictInsert {β : Type} (t : List (String × β)) (k : String) (v : β) :
    List (String × β) :=
  if (t.map Prod.fst).contains k then
    t.map (fun p => if p.1 = k then (k, v) else p)
  else t ++ [(k, v)]

/-- The residual vector `y_true - y_pred` (numpy elementwise subtraction). -/
def residuals (y_true y_pred : List ℝ) : List ℝ :=
  List.zipWith (fun a b => a - b) y_true y_pred

/-- `sklearn.metrics.mean_absolute_error`: the mean of the absolute
residuals.  Input validation: mismatched lengths or an empty sample
raise, modelled as `none`. -/
noncomputable def mean_absolute_error (y_true y_pred : List ℝ) : Option ℝ :=
  if y_true.length = y_pred.length ∧ y_true ≠ [] then
    some (((residuals y_true y_pred).map (fun e => |e|)).sum / y_true.length)
  else none

/-- `sklearn.metrics.mean_squared_error`: the mean of the squared
residuals, with the same input validation. -/
noncomputable def mean_squared_error (y_true y_pred : List ℝ) : Option ℝ :=
  if y_true.length = y_pred.length ∧ y_true ≠ [] then
    some (((residuals y_true y_pred).map (fun e => e ^ 2)).sum / y_true.length)
  else none

/-- The notebook computes RMSE as `np.sqrt(mean_squared_error(...))`. -/
noncomputable def rmseOf (y_true y_pred : List ℝ) : Option ℝ :=
  (mean_squared_error y_true y_pred).map Real.sqrt

/-- The MAE formula exactly as the spec words it:
mean of the absolute differences `y_pred - y_true`. -/
noncomputable def specMAE (y_true y_pred : List ℝ) : ℝ :=
  (List.zipWith (fun t p => |p - t|) y_true y_pred).sum / y_true.length

/-- The RMSE formula exactly as the spec words it:
square root of the mean of `(y_pred - y_true) ^ 2`. -/
noncomputable def specRMSE (y_true y_pred : List ℝ) : ℝ :=
  Real.sqrt ((List.zipWith (fun t p => (p - t) ^ 2) y_true y_pred).sum /
    y_true.length)

/-- The accumulator loop of Python `min` with a key function: walk the
remaining entries, replacing the current best name and best RMSE only on
a strictly smaller RMSE (Python `min` keeps the earlier item on ties). -/
def bestFrom {α : Type} [LinearOrder α] (k : String) (r : α) :
    Table α → String
  | [] => k
  | (k2, e) :: rest =>
      if e.rmse < r then bestFrom k2 e.rmse rest else bestFrom k r rest

/-- `best_model_name = min(results, key=lambda x: results[x][RMSE])`:
the first key of the dictionary seeds the accumulator; an empty
dictionary raises (modelled as `none`). -/
def best_model_name {α : Type} [LinearOrder α] : Table α → Option String
  | [] => none
  | (k, e) :: rest => some (bestFrom k e.rmse rest)

/-- Mutable state of the notebook run: the `best_models` registry
(name to fitted estimator, i.e. its prediction function) and the
`results` dictionary.  `ι` is the type of one feature row. -/
structure PipeState (ι : Type) where
  best_models : List (String × (ι → ℝ))
  results : Table ℝ

/-- The numerical library, as deterministic functions of an explicit
random seed.  `bestParamsOf name seed` is the winning hyperparameter
mapping of the grid search for a candidate model; `fitPredict params
seed` is the prediction function of an estimator built with `params`
and fitted on the training split (GridSearchCV refits the winner on the
full training split, and the ensembles refit clones of the same
configurations on the same split, so both yield this same function);
`stackingPredict seed` is the fitted stacking meta-model pipeline. -/
structure LibOracle (ι : Type) where
  bestParamsOf : String → ℕ → List (String × PValue)
  fitPredict : List (String × PValue) → ℕ → ι → ℝ
  stackingPredict : ℕ → ι → ℝ

/-- The keys of the `models` dictionary, in insertion order. -/
def modelNames : List String :=
  ["Decision Tree", "Random Forest", "XGBRegressor"]

/-- One iteration of the grid-search loop: fit the search, store the
best estimator in `best_models`, predict on the test split, compute the
metrics, and store name, best params and metrics in `results`. -/
noncomputable def gridSearchStage {ι : Type} (o : LibOracle ι) (seed : ℕ)
    (X_test : List ι) (y_test : List ℝ) (st : PipeState ι) (name : String) :
    Except String (PipeState ι) :=
  match mean_absolute_error y_test
          (X_test.map (o.fitPredict (o.bestParamsOf name seed) seed)),
        rmseOf y_test
          (X_test.map (o.fitPredict (o.bestParamsOf name seed) seed)) with
  | some m, some r =>
      Except.ok
        ⟨dictInsert st.best_models name
            (o.fitPredict (o.bestParamsOf name seed) seed),
          dictInsert st.results name
            ⟨BestParams.mapping (o.bestParamsOf name seed), m, r⟩⟩
  | _, _ => Except.error "metric error"

/-- `VotingRegressor.predict` with default weights: the unweighted
average of the member estimators at the given input. -/
noncomputable def sklearn_voting_predict {ι : Type} (members : List (ι → ℝ)) (x : ι) :
    ℝ :=
  (members.map (fun f => f x)).sum / members.length

/-- The member estimators of both ensembles, looked up from the
`best_models` registry: the tuned decision tree, the tuned random
forest, and the tuned XGB model, in that order.  A missing key raises
(modelled as `none`). -/
def votingMembersOf {ι : Type} (st : PipeState ι) :
    Option (List (ι → ℝ)) :=
  match st.best_models.lookup "Decision Tree",
        st.best_models.lookup "Random Forest",
        st.best_models.lookup "XGBRegressor" with
  | some dt, some rf, some xgb => some [dt, rf, xgb]
  | _, _, _ => none

/-- Voting-ensemble cell: build the voting regressor from the three
tuned estimators, fit it, predict on the test split, and record the
metrics under the key Voting Regressor with Best Params set to the
placeholder string. -/
noncomputable def votingStage {ι : Type} (X_test : List ι)
    (y_test : List ℝ) (st : PipeState ι) : Except String (PipeState ι) :=
  match votingMembersOf st with
  | some members =>
      match mean_absolute_error y_test
              (X_test.map (sklearn_voting_predict members)),
            rmseOf y_test (X_test.map (sklearn_voting_predict members)) with
      | some m, some r =>
          Except.ok ⟨st.best_models,
            dictInsert st.results "Voting Regressor"
              ⟨BestParams.na, m, r⟩⟩
      | _, _ => Except.error "metric error"
  | none => Except.error "KeyError"

/-- Stacking-ensemble cell: same three base estimators, an opaque
linear meta-model on their out-of-fold predictions, metrics recorded
under the key Stacking Regressor with the placeholder Best Params. -/
noncomputable def stackingStage {ι : Type} (o : LibOracle ι) (seed : ℕ)
    (X_test : List ι) (y_test : List ℝ) (st : PipeState ι) :
    Except String (PipeState ι) :=
  match votingMembersOf st with
  | some _ =>
      match mean_absolute_error y_test (X_test.map (o.stackingPredict seed)),
            rmseOf y_test (X_test.map (o.stackingPredict seed)) with
      | some m, some r =>
          Except.ok ⟨st.best_models,
            dictInsert st.results "Stacking Regressor"
              ⟨BestParams.na, m, r⟩⟩
      | _, _ => Except.error "metric error"
  | none => Except.error "KeyError"

/-- The `for name, model in models.items()` loop: run the grid-search
iteration for each candidate in order, aborting on the first error. -/
noncomputable def singlesLoop {ι : Type} (o : LibOracle ι) (seed : ℕ)
    (X_test : List ι) (y_test : List ℝ) :
    List String → PipeState ι → Except String (PipeState ι)
  | [], st => Except.ok st
  | name :: rest, st =>
      match gridSearchStage o seed X_test y_test st name with
      | Except.ok st2 => singlesLoop o seed X_test y_test rest st2
      | Except.error e => Except.error e

/-- The single-model stage: start from empty `best_models` and empty
`results` and run the loop over the three candidates. -/
noncomputable def singlesStage {ι : Type} (o : LibOracle ι) (seed : ℕ)
    (X_test : List ι) (y_test : List ℝ) : Except String (PipeState ι) :=
  singlesLoop o seed X_test y_test modelNames ⟨[], []⟩

/-- The whole notebook run: single models, voting ensemble, stacking
ensemble, then the arg-min-RMSE selection over the final results
dictionary.  Any error aborts the run; the output is the selected best
name together with the final results dictionary. -/
noncomputable def runPipeline {ι : Type} (o : LibOracle ι) (seed : ℕ)
    (X_test : List ι) (y_test : List ℝ) :
    Except String (String × Table ℝ) :=
  match singlesStage o seed X_test y_test with
  | Except.error e => Except.error e
  | Except.ok st1 =>
      match votingStage X_test y_test st1 with
      | Except.error e => Except.error e
      | Except.ok st2 =>
          match stackingStage o seed X_test y_test st2 with
          | Except.error e => Except.error e
          | Except.ok st3 =>
              match best_model_name st3.results with
              | some k => Except.ok (k, st3.results)
              | none => Except.error "empty results"

/-- Shorthand for the tuned estimator the grid search returns for one
candidate: the winning configuration refit on the training split. -/
noncomputable def tunedPredict {ι : Type} (o : LibOracle ι) (seed : ℕ)
    (name : String) : ι → ℝ :=
  o.fitPredict (o.bestParamsOf name seed) seed

/-- The three ensemble members in notebook order. -/
noncomputable def bestThree {ι : Type} (o : LibOracle ι) (seed : ℕ) :
    List (ι → ℝ) :=
  [tunedPredict o seed "Decision Tree",
   tunedPredict o seed "Random Forest",
   tunedPredict o seed "XGBRegressor"]

/-- The concrete library oracle used to exercise the pipeline on one
test row: every estimator predicts 0 and every grid search returns the
empty winning mapping. -/
def oW : LibOracle Unit where
  bestParamsOf := fun _ _ => []
  fitPredict := fun _ _ _ => 0
  stackingPredict := fun _ _ => 0

/-- The final results dictionary of the concrete run: five entries in
insertion order, all metrics 0. -/
def oWTable : Table ℝ :=
  [("Decision Tree", ⟨BestParams.mapping [], 0, 0⟩),
   ("Random Forest", ⟨BestParams.mapping [], 0, 0⟩),
   ("XGBRegressor", ⟨BestParams.mapping [], 0, 0⟩),
   ("Voting Regressor", ⟨BestParams.na, 0, 0⟩),
   ("Stacking Regressor", ⟨BestParams.na, 0, 0⟩)]

/-- A constant estimator used in concrete witnesses. -/
def fW : Unit → ℝ := fun _ => 0

/-- A concrete best-model registry holding the three tuned names. -/
def bmW : List (String × (Unit → ℝ)) :=
  [("Decision Tree", fW), ("Random Forest", fW), ("XGBRegressor", fW)]

/-- Pipeline state right after the single-model stage, for witnesses. -/
def stW : PipeState Unit := ⟨bmW, []⟩

/-- State after the voting stage applied to `stW`. -/
def stW2 : PipeState Unit :=
  ⟨bmW, [("Voting Regressor", ⟨BestParams.na, 0, 0⟩)]⟩

/-- State after the stacking stage applied to `stW2`. -/
def stW3 : PipeState Unit :=
  ⟨bmW, [("Voting Regressor", ⟨BestParams.na, 0, 0⟩),
         ("Stacking Regressor", ⟨BestParams.na, 0, 0⟩)]⟩

/-- A concrete results table over the rationals with a tie in the
minimal RMSE between the second and third entries. -/
def tQ : Table ℚ :=
  [("Linear Regression", ⟨BestParams.na, 3, 5⟩),
   ("Ridge", ⟨BestParams.na, 2, 4⟩),
   ("Random Forest", ⟨BestParams.na, 2, 4⟩)]

/-- Two binary functions that agree pointwise give equal `zipWith`s. -/
theorem zipWith_fn_congr {α β γ : Type} (f g : α → β → γ)
    (h : ∀ a b, f a b = g a b) :
    ∀ (l1 : List α) (l2 : List β), List.zipWith f l1 l2 = List.zipWith g l1 l2
  | [], _ => by simp
  | _ :: _, [] => by simp
  | a :: l1, b :: l2 => by
      simp only [List.zipWith_cons_cons, h a b,
        zipWith_fn_congr f g h l1 l2]

theorem residuals_map_abs (y_true y_pred : List ℝ) :
    (residuals y_true y_pred).map (fun e => |e|) =
      List.zipWith (fun t p => |p - t|) y_true y_pred := by
  unfold residuals
  rw [List.map_zipWith]
  exact zipWith_fn_congr _ _ (fun a b => abs_sub_comm a b) y_true y_pred

theorem residuals_map_sq (y_true y_pred : List ℝ) :
    (residuals y_true y_pred).map (fun e => e ^ 2) =
      List.zipWith (fun t p => (p - t) ^ 2) y_true y_pred := by
  unfold residuals
  rw [List.map_zipWith]
  exact zipWith_fn_congr _ _ (fun a b => by ring) y_true y_pred

/-- The mean absolute error, when defined, is nonnegative. -/
theorem mean_absolute_error_nonneg (yt yp : List ℝ) (m : ℝ)
    (hm : mean_absolute_error yt yp = some m) : 0 ≤ m := by
  unfold mean_absolute_error at hm
  split at hm
  case isTrue h =>
    rw [Option.some_inj] at hm
    subst hm
    apply div_nonneg
    · apply List.sum_nonneg
      intro x hx
      rcases List.mem_map.mp hx with ⟨e, _, rfl⟩
      exact abs_nonneg e
    · exact Nat.cast_nonneg _
  case isFalse h => cases hm

/-- The root mean squared error, when defined, is nonnegative. -/
theorem rmseOf_nonneg (yt yp : List ℝ) (r : ℝ)
    (hr : rmseOf yt yp = some r) : 0 ≤ r := by
  unfold rmseOf at hr
  rcases Option.map_eq_some'.mp hr with ⟨q, _, hq⟩
  subst hq
  exact Real.sqrt_nonneg q

theorem two_mul_sum_le (a : ℝ) (l : List ℝ) :
    2 * a * l.sum ≤ (l.map (fun b => b ^ 2)).sum + l.length * a ^ 2 := by
  induction l with
  | nil => simp
  | cons b l ih =>
      simp only [List.sum_cons, List.map_cons, List.length_cons]
      push_cast
      have hb := two_mul_le_add_sq a b
      nlinarith [ih]

/-- Cauchy-Schwarz against the all-ones vector:
the square of a list sum is at most length times the sum of squares. -/
theorem sq_sum_le_length_mul_sq_sum (l : List ℝ) :
    l.sum ^ 2 ≤ l.length * (l.map (fun b => b ^ 2)).sum := by
  induction l with
  | nil => simp
  | cons a l ih =>
      simp only [List.sum_cons, List.map_cons, List.length_cons]
      push_cast
      have h2 := two_mul_sum_le a l
      have hn : (0:ℝ) ≤ l.length := Nat.cast_nonneg _
      nlinarith [ih, sq_nonneg a]

/-- Whenever both metrics are defined on the same sample,
the MAE is at most the RMSE. -/
theorem mae_le_rmse (yt yp : List ℝ) (m r : ℝ)
    (hm : mean_absolute_error yt yp = some m) (hr : rmseOf yt yp = some r) :
    m ≤ r := by
  unfold rmseOf at hr
  rcases Option.map_eq_some'.mp hr with ⟨q, hq, hsq⟩
  subst hsq
  unfold mean_absolute_error at hm
  unfold mean_squared_error at hq
  split at hm
  case isFalse h => cases hm
  case isTrue hc =>
    rw [if_pos hc, Option.some_inj] at hq
    rw [Option.some_inj] at hm
    subst hm
    subst hq
    have hn : (0:ℝ) < yt.length := by
      have h0 : yt.length ≠ 0 := fun h0 => hc.2 (List.length_eq_zero.mp h0)
      exact_mod_cast Nat.pos_of_ne_zero h0
    have hA : (0:ℝ) ≤ ((residuals yt yp).map (fun e => |e|)).sum := by
      apply List.sum_nonneg
      intro x hx
      rcases List.mem_map.mp hx with ⟨e, _, rfl⟩
      exact abs_nonneg e
    have hQ : (0:ℝ) ≤ ((residuals yt yp).map (fun e => e ^ 2)).sum := by
      apply List.sum_nonneg
      intro x hx
      rcases List.mem_map.mp hx with ⟨e, _, rfl⟩
      positivity
    have hlen : (((residuals yt yp).length : ℝ)) = (yt.length : ℝ) := by
      unfold residuals
      rw [List.length_zipWith, hc.1, min_self]
    have key : (((residuals yt yp).map (fun e => |e|)).sum) ^ 2 ≤
        (yt.length : ℝ) * ((residuals yt yp).map (fun e => e ^ 2)).sum := by
      have h1 := sq_sum_le_length_mul_sq_sum ((residuals yt yp).map (fun e => |e|))
      have h2 : (((residuals yt yp).map (fun e => |e|)).map (fun b => b ^ 2)).sum =
          ((residuals yt yp).map (fun e => e ^ 2)).sum := by
        rw [List.map_map]
        congr 1
        exact List.map_congr_left (fun a _ => by simp [Function.comp, sq_abs])
      rw [h2, List.length_map, hlen] at h1
      exact h1
    refine (Real.le_sqrt (div_nonneg hA hn.le) (div_nonneg hQ hn.le)).mpr ?_
    rw [div_pow, div_le_div_iff₀ (by positivity) hn]
    nlinarith [key, hn]

theorem bestFrom_spec {α : Type} [LinearOrder α] (t : Table α) :
    ∀ (k : String) (r : α),
      (bestFrom k r t = k ∧ ∀ p ∈ t, r ≤ p.2.rmse) ∨
      (∃ i, ∃ hi : i < t.length,
        bestFrom k r t = (t.get ⟨i, hi⟩).1 ∧
        (t.get ⟨i, hi⟩).2.rmse < r ∧
        (∀ p ∈ t, (t.get ⟨i, hi⟩).2.rmse ≤ p.2.rmse) ∧
        (∀ j, ∀ hj : j < t.length, j < i →
          (t.get ⟨i, hi⟩).2.rmse < (t.get ⟨j, hj⟩).2.rmse)) := by
  induction t with
  | nil =>
      intro k r
      exact Or.inl ⟨rfl, by simp⟩
  | cons hd rest ih =>
      intro k r
      obtain ⟨k2, e⟩ := hd
      by_cases hlt : e.rmse < r
      · rcases ih k2 e.rmse with ⟨heq, hle⟩ | ⟨i, hi, heq, hlt2, hle, hfirst⟩
        · refine Or.inr ⟨0, Nat.succ_pos _, ?_, ?_, ?_, ?_⟩
          · simpa [bestFrom, hlt] using heq
          · simpa using hlt
          · intro p hp
            rcases List.mem_cons.mp hp with rfl | hp
            · simp
            · simpa using hle p hp
          · intro j hj hj0
            omega
        · refine Or.inr ⟨i + 1, Nat.succ_lt_succ hi, ?_, ?_, ?_, ?_⟩
          · simpa [bestFrom, hlt] using heq
          · exact lt_trans hlt2 hlt
          · intro p hp
            rcases List.mem_cons.mp hp with rfl | hp
            · exact le_of_lt hlt2
            · exact hle p hp
          · intro j hj hj0
            match j, hj, hj0 with
            | 0, hj, hj0 => exact hlt2
            | j + 1, hj, hj0 =>
                exact hfirst j (Nat.lt_of_succ_lt_succ hj)
                  (Nat.lt_of_succ_lt_succ hj0)
      · rcases ih k r with ⟨heq, hle⟩ | ⟨i, hi, heq, hlt2, hle, hfirst⟩
        · refine Or.inl ⟨?_, ?_⟩
          · simpa [bestFrom, hlt] using heq
          · intro p hp
            rcases List.mem_cons.mp hp with rfl | hp
            · simpa using not_lt.mp hlt
            · exact hle p hp
        · refine Or.inr ⟨i + 1, Nat.succ_lt_succ hi, ?_, ?_, ?_, ?_⟩
          · simpa [bestFrom, hlt] using heq
          · exact hlt2
          · intro p hp
            rcases List.mem_cons.mp hp with rfl | hp
            · exact le_of_lt (lt_of_lt_of_le hlt2 (not_lt.mp hlt))
            · exact hle p hp
          · intro j hj hj0
            match j, hj, hj0 with
            | 0, hj, hj0 => exact lt_of_lt_of_le hlt2 (not_lt.mp hlt)
            | j + 1, hj, hj0 =>
                exact hfirst j (Nat.lt_of_succ_lt_succ hj)
                  (Nat.lt_of_succ_lt_succ hj0)

/-- C1: on a non-empty results table, the selection returns the name of
an entry whose RMSE is the minimum over all recorded entries, and every
entry strictly earlier in insertion order has strictly larger RMSE, so
under ties the first-encountered minimal entry wins. -/
theorem selection_min_rmse_first {α : Type} [LinearOrder α] (t : Table α)
    (hne : t ≠ []) :
    ∃ i, ∃ hi : i < t.length,
      best_model_name t = some ((t.get ⟨i, hi⟩).1) ∧
      (∀ p ∈ t, (t.get ⟨i, hi⟩).2.rmse ≤ p.2.rmse) ∧
      (∀ j, ∀ hj : j < t.length, j < i →
        (t.get ⟨i, hi⟩).2.rmse < (t.get ⟨j, hj⟩).2.rmse) := by
  match t, hne with
  | (k, e) :: rest, _ =>
      rcases bestFrom_spec rest k e.rmse with ⟨heq, hle⟩ |
        ⟨i, hi, heq, hlt2, hle, hfirst⟩
      · refine ⟨0, Nat.succ_pos _, ?_, ?_, ?_⟩
        · simpa [best_model_name] using heq
        · intro p hp
          rcases List.mem_cons.mp hp with rfl | hp
          · simp
          · simpa using hle p hp
        · intro j hj hj0
          omega
      · refine ⟨i + 1, Nat.succ_lt_succ hi, ?_, ?_, ?_⟩
        · simpa [best_model_name] using heq
        · intro p hp
          rcases List.mem_cons.mp hp with rfl | hp
          · exact le_of_lt hlt2
          · exact hle p hp
        · intro j hj hj0
          match j, hj, hj0 with
          | 0, hj, hj0 => exact hlt2
          | j + 1, hj, hj0 =>
              exact hfirst j (Nat.lt_of_succ_lt_succ hj)
                (Nat.lt_of_succ_lt_succ hj0)

theorem gridStage_ok_iff {ι : Type} (o : LibOracle ι) (seed : ℕ)
    (xt : List ι) (yt : List ℝ) (st : PipeState ι) (name : String)
    (st2 : PipeState ι) :
    gridSearchStage o seed xt yt st name = Except.ok st2 ↔
    ∃ m r,
      mean_absolute_error yt
        (xt.map (o.fitPredict (o.bestParamsOf name seed) seed)) = some m ∧
      rmseOf yt
        (xt.map (o.fitPredict (o.bestParamsOf name seed) seed)) = some r ∧
      st2 = ⟨dictInsert st.best_models name
               (o.fitPredict (o.bestParamsOf name seed) seed),
             dictInsert st.results name
               ⟨BestParams.mapping (o.bestParamsOf name seed), m, r⟩⟩ := by
  unfold gridSearchStage
  cases hm : mean_absolute_error yt
      (xt.map (o.fitPredict (o.bestParamsOf name seed) seed)) <;>
    cases hr : rmseOf yt
        (xt.map (o.fitPredict (o.bestParamsOf name seed) seed)) <;>
      simp [hm, hr, eq_comm]

theorem votingStage_ok_iff {ι : Type} (xt : List ι) (yt : List ℝ)
    (st : PipeState ι) (st2 : PipeState ι) :
    votingStage xt yt st = Except.ok st2 ↔
    ∃ members m r,
      votingMembersOf st = some members ∧
      mean_absolute_error yt
        (xt.map (sklearn_voting_predict members)) = some m ∧
      rmseOf yt (xt.map (sklearn_voting_predict members)) = some r ∧
      st2 = ⟨st.best_models,
             dictInsert st.results "Voting Regressor"
               ⟨BestParams.na, m, r⟩⟩ := by
  unfold votingStage
  cases hv : votingMembersOf st with
  | none => simp [hv]
  | some members =>
      cases hm : mean_absolute_error yt
          (xt.map (sklearn_voting_predict members)) <;>
        cases hr : rmseOf yt (xt.map (sklearn_voting_predict members)) <;>
          simp [hv, hm, hr, eq_comm]

theorem stackingStage_ok_iff {ι : Type} (o : LibOracle ι) (seed : ℕ)
    (xt : List ι) (yt : List ℝ) (st : PipeState ι) (st2 : PipeState ι) :
    stackingStage o seed xt yt st = Except.ok st2 ↔
    ∃ members m r,
      votingMembersOf st = some members ∧
      mean_absolute_error yt (xt.map (o.stackingPredict seed)) = some m ∧
      rmseOf yt (xt.map (o.stackingPredict seed)) = some r ∧
      st2 = ⟨st.best_models,
             dictInsert st.results "Stacking Regressor"
               ⟨BestParams.na, m, r⟩⟩ := by
  unfold stackingStage
  cases hv : votingMembersOf st with
  | none => simp [hv]
  | some members =>
      cases hm : mean_absolute_error yt (xt.map (o.stackingPredict seed)) <;>
        cases hr : rmseOf yt (xt.map (o.stackingPredict seed)) <;>
          simp [hv, hm, hr, eq_comm]

/-- A successful single-model stage leaves exactly the three candidates
in `best_models` and three result entries, in insertion order, each
with its winning hyperparameter mapping and the metrics of its test
predictions. -/
theorem singles_ok_shape {ι : Type} (o : LibOracle ι) (seed : ℕ)
    (xt : List ι) (yt : List ℝ) (st1 : PipeState ι)
    (h : singlesStage o seed xt yt = Except.ok st1) :
    ∃ m1 r1 m2 r2 m3 r3,
      mean_absolute_error yt
        (xt.map (tunedPredict o seed "Decision Tree")) = some m1 ∧
      rmseOf yt (xt.map (tunedPredict o seed "Decision Tree")) = some r1 ∧
      mean_absolute_error yt
        (xt.map (tunedPredict o seed "Random Forest")) = some m2 ∧
      rmseOf yt (xt.map (tunedPredict o seed "Random Forest")) = some r2 ∧
      mean_absolute_error yt
        (xt.map (tunedPredict o seed "XGBRegressor")) = some m3 ∧
      rmseOf yt (xt.map (tunedPredict o seed "XGBRegressor")) = some r3 ∧
      st1 = ⟨[("Decision Tree", tunedPredict o seed "Decision Tree"),
              ("Random Forest", tunedPredict o seed "Random Forest"),
              ("XGBRegressor", tunedPredict o seed "XGBRegressor")],
             [("Decision Tree",
                 ⟨BestParams.mapping (o.bestParamsOf "Decision Tree" seed),
                  m1, r1⟩),
              ("Random Forest",
                 ⟨BestParams.mapping (o.bestParamsOf "Random Forest" seed),
                  m2, r2⟩),
              ("XGBRegressor",
                 ⟨BestParams.mapping (o.bestParamsOf "XGBRegressor" seed),
                  m3, r3⟩)]⟩ := by
  unfold singlesStage modelNames at h
  simp only [singlesLoop] at h
  cases h1 : gridSearchStage o seed xt yt ⟨[], []⟩ "Decision Tree" with
  | error e => rw [h1] at h; cases h
  | ok stA =>
      rw [h1] at h
      simp only [] at h
      rcases (gridStage_ok_iff o seed xt yt ⟨[], []⟩ "Decision Tree" stA).mp h1
        with ⟨m1, r1, hm1, hr1, hA⟩
      subst hA
      cases h2 : gridSearchStage o seed xt yt _ "Random Forest" with
      | error e => rw [h2] at h; cases h
      | ok stB =>
          rw [h2] at h
          simp only [] at h
          rcases (gridStage_ok_iff o seed xt yt _ "Random Forest" stB).mp h2
            with ⟨m2, r2, hm2, hr2, hB⟩
          subst hB
          cases h3 : gridSearchStage o seed xt yt _ "XGBRegressor" with
          | error e => rw [h3] at h; cases h
          | ok stC =>
              rw [h3] at h
              simp only [] at h
              rcases (gridStage_ok_iff o seed xt yt _ "XGBRegressor" stC).mp h3
                with ⟨m3, r3, hm3, hr3, hC⟩
              subst hC
              refine ⟨m1, r1, m2, r2, m3, r3, hm1, hr1, hm2, hr2, hm3, hr3, ?_⟩
              cases h
              simp [dictInsert, tunedPredict]

/-- Full shape of a successful run: the final results dictionary holds
exactly five entries in insertion order - the three candidates with
their winning hyperparameter mappings, then the two ensembles with the
placeholder params - each carrying the metrics of its test predictions,
and the selected name is the arg-min-RMSE over that final dictionary. -/
theorem run_ok_shape {ι : Type} (o : LibOracle ι) (seed : ℕ) (xt : List ι)
    (yt : List ℝ) (k : String) (t : Table ℝ)
    (h : runPipeline o seed xt yt = Except.ok (k, t)) :
    ∃ m1 r1 m2 r2 m3 r3 m4 r4 m5 r5,
      mean_absolute_error yt
        (xt.map (tunedPredict o seed "Decision Tree")) = some m1 ∧
      rmseOf yt (xt.map (tunedPredict o seed "Decision Tree")) = some r1 ∧
      mean_absolute_error yt
        (xt.map (tunedPredict o seed "Random Forest")) = some m2 ∧
      rmseOf yt (xt.map (tunedPredict o seed "Random Forest")) = some r2 ∧
      mean_absolute_error yt
        (xt.map (tunedPredict o seed "XGBRegressor")) = some m3 ∧
      rmseOf yt (xt.map (tunedPredict o seed "XGBRegressor")) = some r3 ∧
      mean_absolute_error yt
        (xt.map (sklearn_voting_predict (bestThree o seed))) = some m4 ∧
      rmseOf yt
        (xt.map (sklearn_voting_predict (bestThree o seed))) = some r4 ∧
      mean_absolute_error yt (xt.map (o.stackingPredict seed)) = some m5 ∧
      rmseOf yt (xt.map (o.stackingPredict seed)) = some r5 ∧
      t = [("Decision Tree",
              ⟨BestParams.mapping (o.bestParamsOf "Decision Tree" seed),
               m1, r1⟩),
           ("Random Forest",
              ⟨BestParams.mapping (o.bestParamsOf "Random Forest" seed),
               m2, r2⟩),
           ("XGBRegressor",
              ⟨BestParams.mapping (o.bestParamsOf "XGBRegressor" seed),
               m3, r3⟩),
           ("Voting Regressor", ⟨BestParams.na, m4, r4⟩),
           ("Stacking Regressor", ⟨BestParams.na, m5, r5⟩)] ∧
      best_model_name t = some k := by
  unfold runPipeline at h
  cases hs : singlesStage o seed xt yt with
  | error e => rw [hs] at h; cases h
  | ok st1 =>
      rw [hs] at h
      simp only [] at h
      cases hv : votingStage xt yt st1 with
      | error e => rw [hv] at h; cases h
      | ok st2 =>
          rw [hv] at h
          simp only [] at h
          cases hk : stackingStage o seed xt yt st2 with
          | error e => rw [hk] at h; cases h
          | ok st3 =>
              rw [hk] at h
              simp only [] at h
              cases hb : best_model_name st3.results with
              | none => rw [hb] at h; cases h
              | some kb =>
                  rw [hb] at h
                  simp only [] at h
                  obtain ⟨hkk, htt⟩ : kb = k ∧ st3.results = t := by
                    cases h; exact ⟨rfl, rfl⟩
                  rcases singles_ok_shape o seed xt yt st1 hs with
                    ⟨m1, r1, m2, r2, m3, r3, hm1, hr1, hm2, hr2, hm3, hr3,
                      hst1⟩
                  rcases (votingStage_ok_iff xt yt st1 st2).mp hv with
                    ⟨members, m4, r4, hmem, hm4, hr4, hst2⟩
                  rcases (stackingStage_ok_iff o seed xt yt st2 st3).mp hk
                    with ⟨members2, m5, r5, hmem2, hm5, hr5, hst3⟩
                  rw [hst1] at hmem
                  simp only [votingMembersOf, List.lookup] at hmem
                  rw [show ("Random Forest" == "Decision Tree") = false from
                        by decide,
                      show ("XGBRegressor" == "Decision Tree") = false from
                        by decide,
                      show ("XGBRegressor" == "Random Forest") = false from
                        by decide] at hmem
                  simp only [] at hmem
                  obtain rfl : members = bestThree o seed :=
                    (Option.some_inj.mp hmem).symm
                  refine ⟨m1, r1, m2, r2, m3, r3, m4, r4, m5, r5,
                    hm1, hr1, hm2, hr2, hm3, hr3, hm4, hr4, hm5, hr5,
                    ?_, ?_⟩
                  · rw [← htt, hst3, hst2, hst1]
                    simp [dictInsert]
                  · rw [← htt, ← hkk]
                    exact hb

/-- A successful run decomposes into three successful stages; the
output table is the third stage's results and the selected name is the
arg-min over it. -/
theorem run_ok_stages {ι : Type} (o : LibOracle ι) (seed : ℕ)
    (xt : List ι) (yt : List ℝ) (k : String) (t : Table ℝ)
    (h : runPipeline o seed xt yt = Except.ok (k, t)) :
    ∃ st1 st2 st3,
      singlesStage o seed xt yt = Except.ok st1 ∧
      votingStage xt yt st1 = Except.ok st2 ∧
      stackingStage o seed xt yt st2 = Except.ok st3 ∧
      t = st3.results ∧ best_model_name st3.results = some k := by
  unfold runPipeline at h
  cases hs : singlesStage o seed xt yt with
  | error e => rw [hs] at h; cases h
  | ok st1 =>
      rw [hs] at h
      simp only [] at h
      cases hv : votingStage xt yt st1 with
      | error e => rw [hv] at h; cases h
      | ok st2 =>
          rw [hv] at h
          simp only [] at h
          cases hk : stackingStage o seed xt yt st2 with
          | error e => rw [hk] at h; cases h
          | ok st3 =>
              rw [hk] at h
              simp only [] at h
              cases hb : best_model_name st3.results with
              | none => rw [hb] at h; cases h
              | some kb =>
                  rw [hb] at h
                  simp only [] at h
                  cases h
                  exact ⟨st1, st2, st3, rfl, hv, hk, rfl, hb⟩

/-- C2: on a non-empty target/prediction pair of equal length the
evaluation stage computes exactly the spec formulas
MAE = mean of the absolute differences and RMSE = square root of the
mean squared difference; on an empty test set both metric computations
are an explicit error, not a defined value. -/
theorem evaluation_metrics_spec (yt yp : List ℝ)
    (hlen : yt.length = yp.length) (hne : yt ≠ []) :
    mean_absolute_error yt yp = some (specMAE yt yp) ∧
    rmseOf yt yp = some (specRMSE yt yp) ∧
    mean_absolute_error [] [] = none ∧ rmseOf [] [] = none := by
  refine ⟨?_, ?_, ?_, ?_⟩
  · unfold mean_absolute_error specMAE
    rw [if_pos ⟨hlen, hne⟩, residuals_map_abs]
  · unfold rmseOf mean_squared_error specRMSE
    rw [if_pos ⟨hlen, hne⟩, Option.map_some', residuals_map_sq]
  · simp [mean_absolute_error]
  · simp [rmseOf, mean_squared_error]

/-- C3: in every successful run, every entry recorded in the results
table has RMSE greater than or equal to MAE; both metrics of an entry
come from the same prediction/target pair. -/
theorem recorded_rmse_ge_mae {ι : Type} (o : LibOracle ι) (seed : ℕ)
    (xt : List ι) (yt : List ℝ) (k : String) (t : Table ℝ)
    (h : runPipeline o seed xt yt = Except.ok (k, t)) :
    ∀ p ∈ t, p.2.mae ≤ p.2.rmse := by
  rcases run_ok_shape o seed xt yt k t h with
    ⟨m1, r1, m2, r2, m3, r3, m4, r4, m5, r5,
     hm1, hr1, hm2, hr2, hm3, hr3, hm4, hr4, hm5, hr5, ht, hbest⟩
  subst ht
  intro p hp
  simp only [List.mem_cons, List.not_mem_nil, or_false] at hp
  rcases hp with rfl | rfl | rfl | rfl | rfl
  · exact mae_le_rmse _ _ _ _ hm1 hr1
  · exact mae_le_rmse _ _ _ _ hm2 hr2
  · exact mae_le_rmse _ _ _ _ hm3 hr3
  · exact mae_le_rmse _ _ _ _ hm4 hr4
  · exact mae_le_rmse _ _ _ _ hm5 hr5

/-- C9: in every successful run, every entry recorded in the results
table has nonnegative MAE and nonnegative RMSE. -/
theorem recorded_metrics_nonneg {ι : Type} (o : LibOracle ι) (seed : ℕ)
    (xt : List ι) (yt : List ℝ) (k : String) (t : Table ℝ)
    (h : runPipeline o seed xt yt = Except.ok (k, t)) :
    ∀ p ∈ t, 0 ≤ p.2.mae ∧ 0 ≤ p.2.rmse := by
  rcases run_ok_shape o seed xt yt k t h with
    ⟨m1, r1, m2, r2, m3, r3, m4, r4, m5, r5,
     hm1, hr1, hm2, hr2, hm3, hr3, hm4, hr4, hm5, hr5, ht, hbest⟩
  subst ht
  intro p hp
  simp only [List.mem_cons, List.not_mem_nil, or_false] at hp
  rcases hp with rfl | rfl | rfl | rfl | rfl
  · exact ⟨mean_absolute_error_nonneg _ _ _ hm1, rmseOf_nonneg _ _ _ hr1⟩
  · exact ⟨mean_absolute_error_nonneg _ _ _ hm2, rmseOf_nonneg _ _ _ hr2⟩
  · exact ⟨mean_absolute_error_nonneg _ _ _ hm3, rmseOf_nonneg _ _ _ hr3⟩
  · exact ⟨mean_absolute_error_nonneg _ _ _ hm4, rmseOf_nonneg _ _ _ hr4⟩
  · exact ⟨mean_absolute_error_nonneg _ _ _ hm5, rmseOf_nonneg _ _ _ hr5⟩

/-- C4: determinism as a two-run hyperproperty: with the library fits
modelled as deterministic functions of an explicit random seed, two
runs with equal oracle, seed and dataset are equal, hence yield
identical MAE and RMSE for each model in the results table. -/
theorem pipeline_deterministic {ι : Type} (o1 o2 : LibOracle ι)
    (s1 s2 : ℕ) (x1 x2 : List ι) (y1 y2 : List ℝ)
    (ho : o1 = o2) (hs : s1 = s2) (hx : x1 = x2) (hy : y1 = y2) :
    runPipeline o1 s1 x1 y1 = runPipeline o2 s2 x2 y2 ∧
    ∀ k1 t1 k2 t2, runPipeline o1 s1 x1 y1 = Except.ok (k1, t1) →
      runPipeline o2 s2 x2 y2 = Except.ok (k2, t2) →
      k1 = k2 ∧ t1 = t2 := by
  subst ho
  subst hs
  subst hx
  subst hy
  refine ⟨rfl, ?_⟩
  intro k1 t1 k2 t2 h1 h2
  rw [h1] at h2
  cases h2
  exact ⟨rfl, rfl⟩

/-- C5: the members of the ensembles are exactly the three tuned
estimators looked up from the best-model registry - the decision tree,
the random forest and the boosted-trees model, in that order - and the
voting prediction at every input is their unweighted (equal-weight)
arithmetic mean. -/
theorem voting_is_mean_of_best_three {ι : Type} (st : PipeState ι)
    (dt rf xgb : ι → ℝ)
    (hdt : st.best_models.lookup "Decision Tree" = some dt)
    (hrf : st.best_models.lookup "Random Forest" = some rf)
    (hxgb : st.best_models.lookup "XGBRegressor" = some xgb) (x : ι) :
    votingMembersOf st = some [dt, rf, xgb] ∧
    sklearn_voting_predict [dt, rf, xgb] x = (dt x + rf x + xgb x) / 3 := by
  constructor
  · unfold votingMembersOf
    rw [hdt, hrf, hxgb]
  · unfold sklearn_voting_predict
    norm_num
    ring

/-- C8: fitting the two ensembles leaves the best-model registry
unchanged: each ensemble stage returns a state whose registry equals
its input registry, since the library fits its own clones of the base
estimators. -/
theorem ensembles_preserve_best_models {ι : Type} (o : LibOracle ι)
    (seed : ℕ) (xt : List ι) (yt : List ℝ) (st stv sts : PipeState ι)
    (hv : votingStage xt yt st = Except.ok stv)
    (hs : stackingStage o seed xt yt stv = Except.ok sts) :
    stv.best_models = st.best_models ∧
    sts.best_models = st.best_models := by
  rcases (votingStage_ok_iff xt yt st stv).mp hv with
    ⟨_, _, _, _, _, _, hstv⟩
  rcases (stackingStage_ok_iff o seed xt yt stv sts).mp hs with
    ⟨_, _, _, _, _, _, hsts⟩
  subst hstv
  subst hsts
  exact ⟨rfl, rfl⟩

/-- C10: an error in any stage aborts the whole run: the pipeline
returns exactly that error, and no ok output carrying partial results
is surfaced. -/
theorem error_aborts_run {ι : Type} (o : LibOracle ι) (seed : ℕ)
    (xt : List ι) (yt : List ℝ) (e : String)
    (h : singlesStage o seed xt yt = Except.error e ∨
      (∃ st1, singlesStage o seed xt yt = Except.ok st1 ∧
        votingStage xt yt st1 = Except.error e) ∨
      (∃ st1 st2, singlesStage o seed xt yt = Except.ok st1 ∧
        votingStage xt yt st1 = Except.ok st2 ∧
        stackingStage o seed xt yt st2 = Except.error e)) :
    runPipeline o seed xt yt = Except.error e ∧
    ∀ k t, runPipeline o seed xt yt ≠ Except.ok (k, t) := by
  have hrun : runPipeline o seed xt yt = Except.error e := by
    unfold runPipeline
    rcases h with h1 | ⟨st1, h1, h2⟩ | ⟨st1, st2, h1, h2, h3⟩
    · rw [h1]
    · rw [h1]
      simp only []
      rw [h2]
    · rw [h1]
      simp only []
      rw [h2]
      simp only []
      rw [h3]
  refine ⟨hrun, fun k t hk => ?_⟩
  rw [hrun] at hk
  cases hk

/-- C6: the results table is append-only over the run: it starts
empty, the single-model stage appends one entry per candidate in
insertion order, each ensemble stage appends exactly one further
entry, no key is ever removed or overwritten (all five keys are
distinct), and the selected-best output is computed from the final
table. -/
theorem results_append_only {ι : Type} (o : LibOracle ι) (seed : ℕ)
    (xt : List ι) (yt : List ℝ) (k : String) (t : Table ℝ)
    (h : runPipeline o seed xt yt = Except.ok (k, t)) :
    ∃ st1 st2 st3,
      singlesStage o seed xt yt = Except.ok st1 ∧
      votingStage xt yt st1 = Except.ok st2 ∧
      stackingStage o seed xt yt st2 = Except.ok st3 ∧
      (∃ e1 e2 e3, st1.results =
        [("Decision Tree", e1), ("Random Forest", e2),
         ("XGBRegressor", e3)]) ∧
      (∃ e4, st2.results = st1.results ++ [("Voting Regressor", e4)]) ∧
      (∃ e5, st3.results = st2.results ++ [("Stacking Regressor", e5)]) ∧
      t = st3.results ∧ (t.map Prod.fst).Nodup ∧
      best_model_name t = some k := by
  rcases run_ok_stages o seed xt yt k t h with
    ⟨st1, st2, st3, hs, hv, hk, htt, hb⟩
  rcases singles_ok_shape o seed xt yt st1 hs with
    ⟨m1, r1, m2, r2, m3, r3, _, _, _, _, _, _, hst1⟩
  rcases (votingStage_ok_iff xt yt st1 st2).mp hv with
    ⟨members, m4, r4, _, _, _, hst2⟩
  rcases (stackingStage_ok_iff o seed xt yt st2 st3).mp hk with
    ⟨members2, m5, r5, _, _, _, hst3⟩
  have hres1 : st1.results =
      [("Decision Tree",
          (⟨BestParams.mapping (o.bestParamsOf "Decision Tree" seed),
            m1, r1⟩ : Entry ℝ)),
       ("Random Forest",
          ⟨BestParams.mapping (o.bestParamsOf "Random Forest" seed),
            m2, r2⟩),
       ("XGBRegressor",
          ⟨BestParams.mapping (o.bestParamsOf "XGBRegressor" seed),
            m3, r3⟩)] := by
    rw [hst1]
  have hres2 : st2.results =
      st1.results ++ [("Voting Regressor",
        (⟨BestParams.na, m4, r4⟩ : Entry ℝ))] := by
    rw [hst2]
    simp only []
    rw [hres1]
    simp [dictInsert]
  have hres3 : st3.results =
      st2.results ++ [("Stacking Regressor",
        (⟨BestParams.na, m5, r5⟩ : Entry ℝ))] := by
    rw [hst3]
    simp only []
    rw [hres2, hres1]
    simp [dictInsert]
  refine ⟨st1, st2, st3, hs, hv, hk, ⟨_, _, _, hres1⟩, ⟨_, hres2⟩,
    ⟨_, hres3⟩, htt, ?_, ?_⟩
  · subst htt
    rw [hres3, hres2, hres1]
    simp
  · rw [htt]
    exact hb

/-- C7 amended: every entry of the final results table carries MAE and
RMSE; the three single-model entries carry their winning
hyperparameters as a mapping from parameter name to value, while the
voting and stacking entries carry the placeholder N/A instead of a
mapping. -/
theorem results_entry_shape {ι : Type} (o : LibOracle ι) (seed : ℕ)
    (xt : List ι) (yt : List ℝ) (k : String) (t : Table ℝ)
    (h : runPipeline o seed xt yt = Except.ok (k, t)) :
    (∀ p ∈ t, p.1 ∈ modelNames →
      p.2.bestParams = BestParams.mapping (o.bestParamsOf p.1 seed)) ∧
    (∀ p ∈ t, p.1 = "Voting Regressor" ∨ p.1 = "Stacking Regressor" →
      p.2.bestParams = BestParams.na) ∧
    (∀ p ∈ t, p.1 ∈ modelNames ∨ p.1 = "Voting Regressor" ∨
      p.1 = "Stacking Regressor") := by
  rcases run_ok_shape o seed xt yt k t h with
    ⟨m1, r1, m2, r2, m3, r3, m4, r4, m5, r5,
     hm1, hr1, hm2, hr2, hm3, hr3, hm4, hr4, hm5, hr5, ht, hbest⟩
  subst ht
  refine ⟨?_, ?_, ?_⟩ <;>
    · intro p hp
      simp only [List.mem_cons, List.not_mem_nil, or_false] at hp
      rcases hp with rfl | rfl | rfl | rfl | rfl <;>
        simp [modelNames]

theorem oW_run :
    runPipeline oW 42 [()] [(0:ℝ)] =
      Except.ok ("Decision Tree", oWTable) := by
  have e1 : ("Random Forest" == "Decision Tree") = false := by decide
  have e2 : ("XGBRegressor" == "Decision Tree") = false := by decide
  have e3 : ("XGBRegressor" == "Random Forest") = false := by decide
  simp [runPipeline, singlesStage, singlesLoop, modelNames,
    gridSearchStage, oW, votingStage, stackingStage, votingMembersOf,
    sklearn_voting_predict, dictInsert, mean_absolute_error,
    mean_squared_error, rmseOf, residuals, best_model_name, bestFrom,
    oWTable, List.lookup, e1, e2, e3]

/-- C7 counterexample: in a concrete successful run, the entry
recorded for the voting ensemble carries the placeholder
`BestParams.na` - the string N/A of the notebook - which is not a
mapping from parameter name to value, refuting the claim that every
entry, including the ensembles, stores its chosen hyperparameters as
such a mapping. -/
theorem ensemble_params_not_mapping :
    runPipeline oW 42 [()] [(0:ℝ)] =
      Except.ok ("Decision Tree", oWTable) ∧
    ("Voting Regressor", (⟨BestParams.na, 0, 0⟩ : Entry ℝ)) ∈ oWTable ∧
    ∀ ps, (⟨BestParams.na, 0, 0⟩ : Entry ℝ).bestParams ≠
      BestParams.mapping ps := by
  refine ⟨oW_run, by simp [oWTable], fun ps h => ?_⟩
  cases h

theorem votingStage_W :
    votingStage [()] [(0:ℝ)] stW = Except.ok stW2 := by
  have e1 : ("Random Forest" == "Decision Tree") = false := by decide
  have e2 : ("XGBRegressor" == "Decision Tree") = false := by decide
  have e3 : ("XGBRegressor" == "Random Forest") = false := by decide
  simp [votingStage, votingMembersOf, stW, stW2, bmW, fW, List.lookup,
    e1, e2, e3, sklearn_voting_predict, mean_absolute_error,
    mean_squared_error, rmseOf, residuals, dictInsert]

theorem stackingStage_W :
    stackingStage oW 42 [()] [(0:ℝ)] stW2 = Except.ok stW3 := by
  have e1 : ("Random Forest" == "Decision Tree") = false := by decide
  have e2 : ("XGBRegressor" == "Decision Tree") = false := by decide
  have e3 : ("XGBRegressor" == "Random Forest") = false := by decide
  simp [stackingStage, votingMembersOf, stW2, stW3, bmW, fW, oW,
    List.lookup, e1, e2, e3, mean_absolute_error, mean_squared_error,
    rmseOf, residuals, dictInsert]

theorem lookup_dt_W : stW.best_models.lookup "Decision Tree" = some fW := by
  simp [stW, bmW, List.lookup]

theorem lookup_rf_W : stW.best_models.lookup "Random Forest" = some fW := by
  have e1 : ("Random Forest" == "Decision Tree") = false := by decide
  simp [stW, bmW, List.lookup, e1]

theorem lookup_xgb_W : stW.best_models.lookup "XGBRegressor" = some fW := by
  have e2 : ("XGBRegressor" == "Decision Tree") = false := by decide
  have e3 : ("XGBRegressor" == "Random Forest") = false := by decide
  simp [stW, bmW, List.lookup, e2, e3]

theorem selection_min_rmse_first_witness :
    tQ ≠ [] ∧
    (∃ i, ∃ hi : i < tQ.length,
      best_model_name tQ = some ((tQ.get ⟨i, hi⟩).1) ∧
      (∀ p ∈ tQ, (tQ.get ⟨i, hi⟩).2.rmse ≤ p.2.rmse) ∧
      (∀ j, ∀ hj : j < tQ.length, j < i →
        (tQ.get ⟨i, hi⟩).2.rmse < (tQ.get ⟨j, hj⟩).2.rmse)) :=
  ⟨by simp [tQ], selection_min_rmse_first tQ (by simp [tQ])⟩

theorem evaluation_metrics_spec_witness :
    ([(0:ℝ)].length = [(1:ℝ)].length) ∧ ([(0:ℝ)] ≠ []) ∧
    (mean_absolute_error [(0:ℝ)] [(1:ℝ)] =
        some (specMAE [(0:ℝ)] [(1:ℝ)]) ∧
      rmseOf [(0:ℝ)] [(1:ℝ)] = some (specRMSE [(0:ℝ)] [(1:ℝ)]) ∧
      mean_absolute_error [] [] = none ∧ rmseOf [] [] = none) :=
  ⟨rfl, by simp,
    evaluation_metrics_spec [(0:ℝ)] [(1:ℝ)] rfl (by simp)⟩

theorem recorded_rmse_ge_mae_witness :
    runPipeline oW 42 [()] [(0:ℝ)] =
        Except.ok ("Decision Tree", oWTable) ∧
    ∀ p ∈ oWTable, p.2.mae ≤ p.2.rmse :=
  ⟨oW_run,
    recorded_rmse_ge_mae oW 42 [()] [(0:ℝ)] "Decision Tree" oWTable
      oW_run⟩

theorem recorded_metrics_nonneg_witness :
    runPipeline oW 42 [()] [(0:ℝ)] =
        Except.ok ("Decision Tree", oWTable) ∧
    ∀ p ∈ oWTable, 0 ≤ p.2.mae ∧ 0 ≤ p.2.rmse :=
  ⟨oW_run,
    recorded_metrics_nonneg oW 42 [()] [(0:ℝ)] "Decision Tree" oWTable
      oW_run⟩

theorem pipeline_deterministic_witness :
    oW = oW ∧ 42 = 42 ∧ [()] = [()] ∧ [(0:ℝ)] = [(0:ℝ)] ∧
    (runPipeline oW 42 [()] [(0:ℝ)] = runPipeline oW 42 [()] [(0:ℝ)] ∧
      ∀ k1 t1 k2 t2,
        runPipeline oW 42 [()] [(0:ℝ)] = Except.ok (k1, t1) →
        runPipeline oW 42 [()] [(0:ℝ)] = Except.ok (k2, t2) →
        k1 = k2 ∧ t1 = t2) :=
  ⟨rfl, rfl, rfl, rfl,
    pipeline_deterministic oW oW 42 42 [()] [()] [(0:ℝ)] [(0:ℝ)]
      rfl rfl rfl rfl⟩

theorem voting_is_mean_of_best_three_witness :
    stW.best_models.lookup "Decision Tree" = some fW ∧
    stW.best_models.lookup "Random Forest" = some fW ∧
    stW.best_models.lookup "XGBRegressor" = some fW ∧
    (votingMembersOf stW = some [fW, fW, fW] ∧
      sklearn_voting_predict [fW, fW, fW] () =
        (fW () + fW () + fW ()) / 3) :=
  ⟨lookup_dt_W, lookup_rf_W, lookup_xgb_W,
    voting_is_mean_of_best_three stW fW fW fW lookup_dt_W lookup_rf_W
      lookup_xgb_W ()⟩

theorem results_append_only_witness :
    runPipeline oW 42 [()] [(0:ℝ)] =
        Except.ok ("Decision Tree", oWTable) ∧
    (∃ st1 st2 st3,
      singlesStage oW 42 [()] [(0:ℝ)] = Except.ok st1 ∧
      votingStage [()] [(0:ℝ)] st1 = Except.ok st2 ∧
      stackingStage oW 42 [()] [(0:ℝ)] st2 = Except.ok st3 ∧
      (∃ e1 e2 e3, st1.results =
        [("Decision Tree", e1), ("Random Forest", e2),
         ("XGBRegressor", e3)]) ∧
      (∃ e4, st2.results = st1.results ++ [("Voting Regressor", e4)]) ∧
      (∃ e5, st3.results =
        st2.results ++ [("Stacking Regressor", e5)]) ∧
      oWTable = st3.results ∧ (oWTable.map Prod.fst).Nodup ∧
      best_model_name oWTable = some "Decision Tree") :=
  ⟨oW_run,
    results_append_only oW 42 [()] [(0:ℝ)] "Decision Tree" oWTable
      oW_run⟩

theorem results_entry_shape_witness :
    runPipeline oW 42 [()] [(0:ℝ)] =
        Except.ok ("Decision Tree", oWTable) ∧
    ((∀ p ∈ oWTable, p.1 ∈ modelNames →
        p.2.bestParams = BestParams.mapping (oW.bestParamsOf p.1 42)) ∧
      (∀ p ∈ oWTable,
        p.1 = "Voting Regressor" ∨ p.1 = "Stacking Regressor" →
        p.2.bestParams = BestParams.na) ∧
      (∀ p ∈ oWTable, p.1 ∈ modelNames ∨ p.1 = "Voting Regressor" ∨
        p.1 = "Stacking Regressor")) :=
  ⟨oW_run,
    results_entry_shape oW 42 [()] [(0:ℝ)] "Decision Tree" oWTable
      oW_run⟩

theorem ensembles_preserve_best_models_witness :
    votingStage [()] [(0:ℝ)] stW = Except.ok stW2 ∧
    stackingStage oW 42 [()] [(0:ℝ)] stW2 = Except.ok stW3 ∧
    (stW2.best_models = stW.best_models ∧
      stW3.best_models = stW.best_models) :=
  ⟨votingStage_W, stackingStage_W,
    ensembles_preserve_best_models oW 42 [()] [(0:ℝ)] stW stW2 stW3
      votingStage_W stackingStage_W⟩

theorem singlesStage_fails_empty :
    singlesStage oW 42 ([] : List Unit) ([] : List ℝ) =
      Except.error "metric error" := by
  simp [singlesStage, singlesLoop, modelNames, gridSearchStage, oW,
    mean_absolute_error, mean_squared_error, rmseOf, residuals]

theorem error_aborts_run_witness :
    (singlesStage oW 42 ([] : List Unit) ([] : List ℝ) =
        Except.error "metric error" ∨
      (∃ st1, singlesStage oW 42 ([] : List Unit) ([] : List ℝ) =
          Except.ok st1 ∧
        votingStage ([] : List Unit) ([] : List ℝ) st1 =
          Except.error "metric error") ∨
      (∃ st1 st2, singlesStage oW 42 ([] : List Unit) ([] : List ℝ) =
          Except.ok st1 ∧
        votingStage ([] : List Unit) ([] : List ℝ) st1 =
          Except.ok st2 ∧
        stackingStage oW 42 ([] : List Unit) ([] : List ℝ) st2 =
          Except.error "metric error")) ∧
    (runPipeline oW 42 ([] : List Unit) ([] : List ℝ) =
        Except.error "metric error" ∧
      ∀ k t, runPipeline oW 42 ([] : List Unit) ([] : List ℝ) ≠
        Except.ok (k, t)) :=
  ⟨Or.inl singlesStage_fails_empty,
    error_aborts_run oW 42 ([] : List Unit) ([] : List ℝ)
      "metric error" (Or.inl singlesStage_fails_empty)⟩

end ModeloFinal
